import Mathlib

/-!
Verification of the inverse source-term estimation engine of this repository
(directory 溯源算法).  The engine's core modules (`gaussian_plume_model.py`,
`optimized_source_inversion.py`) are not among the repository files available
here — only their callers and tests are — so those parts are modelled from the
specification, as flagged in each doc comment.  Code that is present
(`enhanced_pollution_tracing.py`, `web_interface.py`) is embedded directly.

Real-valued quantities are modelled by `ℝ`; Python floats never hold NaN/Inf
in the guarded paths the spec describes, and the model makes totality and
finiteness structural.  Randomness (numpy draws, GA operators) is modelled by
explicit input streams, so every theorem quantifies over all random outcomes.
-/

namespace SourceTracing

/-- Modelled from the spec: `PollutionSource` of the missing
`gaussian_plume_model.py` — position in meters and emission rate in g/s. -/
structure PollutionSource where
  x : ℝ
  y : ℝ
  z : ℝ
  emission_rate : ℝ

/-- Modelled from the spec: `MeteoData` of the missing
`gaussian_plume_model.py` — one meteorological state per inversion run. -/
structure MeteoData where
  wind_speed : ℝ
  wind_direction : ℝ
  temperature : ℝ
  pressure : ℝ
  humidity : ℝ
  solar_radiation : ℝ
  cloud_cover : ℝ

/-- Modelled from the spec: the calm-wind cutoff below which the plume formula
is not evaluated ("wind speed below a minimal threshold (calm) ⇒ return 0"). -/
def calmThreshold : ℝ := 0.5

/-- Modelled from the spec: Pasquill–Gifford stability category "derived from
wind speed and (if available) solar radiation/cloud cover".  0 = most
unstable, 3 = most stable. -/
noncomputable def stabilityClass (m : MeteoData) : ℕ :=
  if m.wind_speed < 2 then (if 700 < m.solar_radiation then 0 else 1)
  else if m.wind_speed < 3 then 1
  else if m.wind_speed < 5 then 2
  else 3

/-- Modelled from the spec: horizontal dispersion-coefficient rate per
stability class (σy grows linearly with downwind distance). -/
def sigmaYCoeff (c : ℕ) : ℝ :=
  if c = 0 then 0.22 else if c = 1 then 0.16 else if c = 2 then 0.12 else 0.08

/-- Modelled from the spec: vertical dispersion-coefficient rate per
stability class (σz grows linearly with downwind distance). -/
def sigmaZCoeff (c : ℕ) : ℝ :=
  if c = 0 then 0.2 else if c = 1 then 0.14 else if c = 2 then 0.1 else 0.06

lemma sigmaYCoeff_pos (c : ℕ) : 0 < sigmaYCoeff c := by
  unfold sigmaYCoeff
  split_ifs <;> norm_num

lemma sigmaZCoeff_pos (c : ℕ) : 0 < sigmaZCoeff c := by
  unfold sigmaZCoeff
  split_ifs <;> norm_num

/-- Modelled from the spec: the flow angle (radians) of the downwind axis for
a meteorological "from" wind direction given in degrees. -/
noncomputable def windAngle (m : MeteoData) : ℝ :=
  (270 - m.wind_direction) * Real.pi / 180

/-- Modelled from the spec: downwind coordinate of the receptor after rotating
it into the frame aligned with the wind direction. -/
noncomputable def downwindDist (s : PollutionSource) (rx ry : ℝ) (m : MeteoData) : ℝ :=
  (rx - s.x) * Real.cos (windAngle m) + (ry - s.y) * Real.sin (windAngle m)

/-- Modelled from the spec: crosswind coordinate of the receptor in the
wind-aligned frame. -/
noncomputable def crosswindDist (s : PollutionSource) (rx ry : ℝ) (m : MeteoData) : ℝ :=
  -((rx - s.x) * Real.sin (windAngle m)) + (ry - s.y) * Real.cos (windAngle m)

/-- Modelled from the spec: `GaussianPlumeModel.calculate_concentration` of the
missing `gaussian_plume_model.py`.  Steady-state Gaussian plume with ground
reflection; receptor upwind (downwind distance ≤ 0), calm wind, or
non-positive dispersion widths all yield 0 ("guard all divisions against
zero.  The function never raises — invalid geometry yields 0"). -/
noncomputable def calculate_concentration (s : PollutionSource) (rx ry rz : ℝ)
    (m : MeteoData) : ℝ :=
  if m.wind_speed < calmThreshold then 0
  else
    if downwindDist s rx ry m ≤ 0 then 0
    else
      if sigmaYCoeff (stabilityClass m) * downwindDist s rx ry m ≤ 0 ∨
          sigmaZCoeff (stabilityClass m) * downwindDist s rx ry m ≤ 0 then 0
      else
        s.emission_rate /
            (2 * Real.pi * m.wind_speed *
              (sigmaYCoeff (stabilityClass m) * downwindDist s rx ry m) *
              (sigmaZCoeff (stabilityClass m) * downwindDist s rx ry m)) *
          Real.exp (-(crosswindDist s rx ry m ^ 2) /
            (2 * (sigmaYCoeff (stabilityClass m) * downwindDist s rx ry m) ^ 2)) *
          (Real.exp (-((rz - s.z) ^ 2) /
              (2 * (sigmaZCoeff (stabilityClass m) * downwindDist s rx ry m) ^ 2)) +
            Real.exp (-((rz + s.z) ^ 2) /
              (2 * (sigmaZCoeff (stabilityClass m) * downwindDist s rx ry m) ^ 2)))

lemma calculate_concentration_of_downwind_nonpos (s : PollutionSource)
    (rx ry rz : ℝ) (m : MeteoData) (h : downwindDist s rx ry m ≤ 0) :
    calculate_concentration s rx ry rz m = 0 := by
  unfold calculate_concentration
  split_ifs with h1 h2 h3 <;> first | rfl | exact absurd h h2

lemma calculate_concentration_of_calm (s : PollutionSource) (rx ry rz : ℝ)
    (m : MeteoData) (h : m.wind_speed < calmThreshold) :
    calculate_concentration s rx ry rz m = 0 := by
  unfold calculate_concentration
  split_ifs with h1 h2 h3 <;> first | rfl | exact absurd h h1

lemma calculate_concentration_nonneg (s : PollutionSource) (rx ry rz : ℝ)
    (m : MeteoData) (hq : 0 ≤ s.emission_rate) :
    0 ≤ calculate_concentration s rx ry rz m := by
  unfold calculate_concentration
  split_ifs with hcalm hd hsig
  · exact le_refl 0
  · exact le_refl 0
  · exact le_refl 0
  · have hpi : (0:ℝ) < Real.pi := Real.pi_pos
    push_neg at hcalm hd hsig
    have hu : (0:ℝ) < m.wind_speed := lt_of_lt_of_le (by norm_num [calmThreshold]) hcalm
    have hsy := hsig.1
    have hsz := hsig.2
    have hden : 0 ≤ 2 * Real.pi * m.wind_speed *
        (sigmaYCoeff (stabilityClass m) * downwindDist s rx ry m) *
        (sigmaZCoeff (stabilityClass m) * downwindDist s rx ry m) := by
      positivity
    have h1 : 0 ≤ s.emission_rate /
        (2 * Real.pi * m.wind_speed *
          (sigmaYCoeff (stabilityClass m) * downwindDist s rx ry m) *
          (sigmaZCoeff (stabilityClass m) * downwindDist s rx ry m)) :=
      div_nonneg hq hden
    have h2 : 0 ≤ Real.exp (-(crosswindDist s rx ry m ^ 2) /
        (2 * (sigmaYCoeff (stabilityClass m) * downwindDist s rx ry m) ^ 2)) :=
      (Real.exp_pos _).le
    have h3 : 0 ≤ Real.exp (-((rz - s.z) ^ 2) /
          (2 * (sigmaZCoeff (stabilityClass m) * downwindDist s rx ry m) ^ 2)) +
        Real.exp (-((rz + s.z) ^ 2) /
          (2 * (sigmaZCoeff (stabilityClass m) * downwindDist s rx ry m) ^ 2)) := by
      positivity
    exact mul_nonneg (mul_nonneg h1 h2) h3

/-- C1: for every hypothesized source with non-negative emission rate, every
receptor position and meteorological state, the dispersion model returns a
(real, hence finite) value ≥ 0; invalid geometry — receptor upwind of the
source — and calm wind both yield exactly 0.  The Lean model is total, so no
exception and no NaN/Inf can occur. -/
theorem concentration_finite_nonneg_total (s : PollutionSource) (rx ry rz : ℝ)
    (m : MeteoData) (hq : 0 ≤ s.emission_rate) :
    0 ≤ calculate_concentration s rx ry rz m ∧
      (downwindDist s rx ry m ≤ 0 → calculate_concentration s rx ry rz m = 0) ∧
      (m.wind_speed < calmThreshold → calculate_concentration s rx ry rz m = 0) :=
  ⟨calculate_concentration_nonneg s rx ry rz m hq,
   fun h => calculate_concentration_of_downwind_nonpos s rx ry rz m h,
   fun h => calculate_concentration_of_calm s rx ry rz m h⟩

/-- Witness for C1 at the repository's default scenario: source
(150, 200, 25) emitting 2.5 g/s, receptor (0, 0, 2), wind 3.5 m/s from 225°. -/
theorem concentration_finite_nonneg_total_witness :
    0 ≤ calculate_concentration ⟨150, 200, 25, 2.5⟩ 0 0 2
        ⟨3.5, 225, 20, 101325, 60, 500, 0.3⟩ ∧
      (downwindDist ⟨150, 200, 25, 2.5⟩ 0 0 ⟨3.5, 225, 20, 101325, 60, 500, 0.3⟩ ≤ 0 →
        calculate_concentration ⟨150, 200, 25, 2.5⟩ 0 0 2
          ⟨3.5, 225, 20, 101325, 60, 500, 0.3⟩ = 0) ∧
      ((3.5:ℝ) < calmThreshold →
        calculate_concentration ⟨150, 200, 25, 2.5⟩ 0 0 2
          ⟨3.5, 225, 20, 101325, 60, 500, 0.3⟩ = 0) :=
  concentration_finite_nonneg_total ⟨150, 200, 25, 2.5⟩ 0 0 2
    ⟨3.5, 225, 20, 101325, 60, 500, 0.3⟩ (by norm_num)

/-- Modelled from the spec: `OptimizedSensorData` of the missing
`optimized_source_inversion.py`.  The string sensor id and timestamp carry no
algorithmic content and are modelled by a numeric id. -/
structure OptimizedSensorData where
  sensor_id : ℕ
  x : ℝ
  y : ℝ
  z : ℝ
  concentration : ℝ
  uncertainty : ℝ
  weight : ℝ

/-- Modelled from the spec: the optimizer's 4-D decision vector
(x, y, z, emission rate q). -/
structure Candidate where
  x : ℝ
  y : ℝ
  z : ℝ
  q : ℝ

/-- A candidate decoded as a hypothesized source. -/
def candidateSource (c : Candidate) : PollutionSource := ⟨c.x, c.y, c.z, c.q⟩

/-- A source encoded as a candidate vector. -/
def sourceCandidate (s : PollutionSource) : Candidate := ⟨s.x, s.y, s.z, s.emission_rate⟩

/-- Modelled from the spec: the small ε added to each observation's declared
uncertainty so the residual denominator is never zero. -/
def epsDen : ℝ := 1e-8

/-- Modelled from the spec: one observation's contribution to the objective,
`weight · ((predicted − observed) / (uncertainty + ε))²`. -/
noncomputable def residualTerm (c : Candidate) (m : MeteoData)
    (o : OptimizedSensorData) : ℝ :=
  o.weight *
    ((calculate_concentration (candidateSource c) o.x o.y o.z m - o.concentration) /
        (o.uncertainty + epsDen)) ^ 2

/-- Modelled from the spec: `CandidateEvaluator.objective` of the missing
`optimized_source_inversion.py` — the weighted residual sum normalized by the
observation count.  Deterministic: no internal randomness. -/
noncomputable def objective (c : Candidate) (obs : List OptimizedSensorData)
    (m : MeteoData) : ℝ :=
  (obs.map (residualTerm c m)).sum / obs.length

/-- Modelled from the spec: noise-free observations sampled from the forward
model at given receptor positions (id, x, y, z), with the default measurement
uncertainty 0.1 and weight 1 used by the repositorys tests. -/
noncomputable def noiseFreeObs (s : PollutionSource) (m : MeteoData)
    (pos : List (ℕ × ℝ × ℝ × ℝ)) : List OptimizedSensorData :=
  pos.map (fun p =>
    ⟨p.1, p.2.1, p.2.2.1, p.2.2.2,
      calculate_concentration s p.2.1 p.2.2.1 p.2.2.2 m, 0.1, 1⟩)

/-- C5: round-trip — the objective of the true source, evaluated against
noise-free observations generated from the forward model at the sensor
positions, is exactly 0 in real arithmetic (hence ≈ 0 within any floating
tolerance). -/
theorem objective_true_source_zero (s : PollutionSource) (m : MeteoData)
    (pos : List (ℕ × ℝ × ℝ × ℝ)) :
    objective (sourceCandidate s) (noiseFreeObs s m pos) m = 0 := by
  have hsrc : candidateSource (sourceCandidate s) = s := by
    cases s
    rfl
  have hterm : ∀ p : ℕ × ℝ × ℝ × ℝ,
      residualTerm (sourceCandidate s) m
        ⟨p.1, p.2.1, p.2.2.1, p.2.2.2,
          calculate_concentration s p.2.1 p.2.2.1 p.2.2.2 m, 0.1, 1⟩ = 0 := by
    intro p
    simp [residualTerm, hsrc]
  have hmap : ((noiseFreeObs s m pos).map
      (residualTerm (sourceCandidate s) m)).sum = 0 := by
    unfold noiseFreeObs
    rw [List.map_map]
    apply List.sum_eq_zero
    intro r hr
    rcases List.mem_map.mp hr with ⟨p, hp, hpr⟩
    rw [← hpr]
    exact hterm p
  unfold objective
  rw [hmap, zero_div]

/-- Rounded cache key: every coordinate rounded to a fixed decimal precision,
collapsing near-duplicate candidates. -/
noncomputable def roundKey (x : ℝ) : ℤ := ⌊x * 10 ^ 6 + 1 / 2⌋

/-- Modelled from the spec: the memoization key of a candidate ("keyed on the
candidate rounded to a fixed decimal precision"). -/
noncomputable def candidateKey (c : Candidate) : ℤ × ℤ × ℤ × ℤ :=
  (roundKey c.x, roundKey c.y, roundKey c.z, roundKey c.q)

/-- Association-list lookup of the evaluator's cache dictionary. -/
def cacheLookup : List ((ℤ × ℤ × ℤ × ℤ) × ℝ) → ℤ × ℤ × ℤ × ℤ → Option ℝ
  | [], _ => none
  | (k, v) :: rest, key => if k = key then some v else cacheLookup rest key

/-- Modelled from the spec: the evaluator's mutable state — the memoization
cache, the cache-hit counter reported in `performance_metrics`, and the count
of full objective computations. -/
structure EvaluatorState where
  cache : List ((ℤ × ℤ × ℤ × ℤ) × ℝ)
  cacheHits : ℕ
  evalCount : ℕ

/-- The evaluator state at the start of one run: empty cache, zero counters. -/
def initEvaluatorState : EvaluatorState := ⟨[], 0, 0⟩

/-- Modelled from the spec: one `CandidateEvaluator` evaluation — "a cache
miss computes and stores; a cache hit returns the stored value and increments
a hit counter used later in `performance_metrics`". -/
noncomputable def evaluateCandidate (obs : List OptimizedSensorData) (m : MeteoData)
    (st : EvaluatorState) (c : Candidate) : ℝ × EvaluatorState :=
  match cacheLookup st.cache (candidateKey c) with
  | some v => (v, ⟨st.cache, st.cacheHits + 1, st.evalCount⟩)
  | none =>
    (objective c obs m,
      ⟨(candidateKey c, objective c obs m) :: st.cache, st.cacheHits, st.evalCount + 1⟩)

/-- C4: evaluating the same candidate a second time in one run returns the
value of the first evaluation unchanged (same key ⇒ same value) and counts
exactly one additional cache hit in the counter that feeds
`performance_metrics`. -/
theorem evaluateCandidate_second_eval_hits (obs : List OptimizedSensorData)
    (m : MeteoData) (st : EvaluatorState) (c : Candidate) :
    (evaluateCandidate obs m (evaluateCandidate obs m st c).2 c).1 =
        (evaluateCandidate obs m st c).1 ∧
      (evaluateCandidate obs m (evaluateCandidate obs m st c).2 c).2.cacheHits =
        (evaluateCandidate obs m st c).2.cacheHits + 1 := by
  unfold evaluateCandidate
  cases hl : cacheLookup st.cache (candidateKey c) with
  | some v => simp [hl]
  | none => simp [hl, cacheLookup]

/-- Modelled from the spec: `AdaptiveGAParameters` of the missing
`optimized_source_inversion.py`.  `none` in an optional field means the
argument was omitted and the library default applies. -/
structure AdaptiveGAParameters where
  population_size : ℕ
  max_generations : ℕ
  use_parallel : Bool
  use_cache : Bool
  diversity_threshold : Option ℚ
  stagnation_threshold : Option ℕ

/-- The candidate with the lower objective of two (minimization). -/
noncomputable def better (f : Candidate → ℝ) (a b : Candidate) : Candidate :=
  if f b < f a then b else a

/-- Best candidate of a population, seeded with the incumbent elite. -/
noncomputable def bestOf (f : Candidate → ℝ) (c : Candidate)
    (l : List Candidate) : Candidate :=
  l.foldl (better f) c

lemma better_le_left (f : Candidate → ℝ) (a b : Candidate) :
    f (better f a b) ≤ f a := by
  unfold better
  split_ifs with h
  · exact le_of_lt h
  · exact le_refl _

lemma bestOf_le_seed (f : Candidate → ℝ) (c : Candidate) (l : List Candidate) :
    f (bestOf f c l) ≤ f c := by
  induction l generalizing c with
  | nil => exact le_refl _
  | cons a rest ih =>
    calc f (bestOf f (better f c a) rest) ≤ f (better f c a) := ih (better f c a)
      _ ≤ f c := better_le_left f c a

/-- Modelled from the spec: the best-known candidate after generation `n` of
the adaptive GA.  Generation 0 evaluates the initial population; each later
generation carries the incumbent best unmodified into the new population
(elitism) and re-selects the best.  The offspring stream models every random
choice of selection, crossover, mutation and restart injection, so the
theorems below hold for every random outcome. -/
noncomputable def gaBest (f : Candidate → ℝ) (c0 : Candidate)
    (pop : List Candidate) (offspring : ℕ → List Candidate) : ℕ → Candidate
  | 0 => bestOf f c0 pop
  | n + 1 => bestOf f (gaBest f c0 pop offspring n) (offspring n)

/-- Modelled from the spec: `convergence_history` — "records the best
objective value per generation". -/
noncomputable def convergence_history (f : Candidate → ℝ) (c0 : Candidate)
    (pop : List Candidate) (offspring : ℕ → List Candidate) (n : ℕ) : List ℝ :=
  (List.range n).map (fun i => f (gaBest f c0 pop offspring i))

lemma gaBest_succ_le (f : Candidate → ℝ) (c0 : Candidate) (pop : List Candidate)
    (offspring : ℕ → List Candidate) (n : ℕ) :
    f (gaBest f c0 pop offspring (n + 1)) ≤ f (gaBest f c0 pop offspring n) :=
  bestOf_le_seed f (gaBest f c0 pop offspring n) (offspring n)

/-- C2: the recorded best objective value is monotonically non-increasing
across generations, for every objective, every initial population, and every
random offspring stream — elitism carries the incumbent best into each new
generation, so the per-generation best can never worsen. -/
theorem convergence_history_nonincreasing (f : Candidate → ℝ) (c0 : Candidate)
    (pop : List Candidate) (offspring : ℕ → List Candidate) (n i : ℕ)
    (h : i + 1 < n) :
    (convergence_history f c0 pop offspring n).getD (i + 1) 0 ≤
      (convergence_history f c0 pop offspring n).getD i 0 := by
  have hlen : (convergence_history f c0 pop offspring n).length = n := by
    simp [convergence_history]
  have hi : i < n := Nat.lt_of_succ_lt h
  have hv : ∀ j, j < n → (convergence_history f c0 pop offspring n).getD j 0 =
      f (gaBest f c0 pop offspring j) := by
    intro j hj
    unfold convergence_history
    rw [List.getD_eq_getElem?_getD]
    rw [List.getElem?_map]
    rw [List.getElem?_range hj]
    rfl
  rw [hv (i + 1) h, hv i hi]
  exact gaBest_succ_le f c0 pop offspring i

/-- Witness for C2 with a two-generation run: the objective is the emission
coordinate, the initial population is the single seed, offspring are empty. -/
theorem convergence_history_nonincreasing_witness :
    (convergence_history (fun c => c.q) ⟨0, 0, 0, 1⟩ [] (fun _ => []) 2).getD 1 0 ≤
      (convergence_history (fun c => c.q) ⟨0, 0, 0, 1⟩ [] (fun _ => []) 2).getD 0 0 :=
  convergence_history_nonincreasing (fun c => c.q) ⟨0, 0, 0, 1⟩ [] (fun _ => []) 2 0
    (by norm_num)

/-- Modelled from the spec: the run's error taxonomy — only input validation
is surfaced as a hard failure. -/
inductive InversionError where
  | inputValidationError

/-- Modelled from the spec: the usable observations — those with finite,
non-negative concentration (finiteness is structural over ℝ). -/
noncomputable def usableObs : List OptimizedSensorData → List OptimizedSensorData
  | [] => []
  | o :: rest => if 0 ≤ o.concentration then o :: usableObs rest else usableObs rest

/-- Modelled from the spec: the absolute-objective convergence target; a best
objective at or above it counts as "remained at an initialization-scale
value", i.e. non-convergence. -/
def convergenceTarget : ℝ := 1e-6

/-- A two-sided 5th/95th percentile interval of a list of samples. -/
noncomputable def percentileInterval (samples : List ℝ) : ℝ × ℝ :=
  ((samples.insertionSort (· ≤ ·)).getD (5 * (samples.length - 1) / 100) 0,
   (samples.insertionSort (· ≤ ·)).getD (95 * (samples.length - 1) / 100) 0)

/-- Modelled from the spec: `UncertaintyEstimator` after the optimizer — the
perturbed re-optimizations are modelled by the trial outcome stream; per-axis
percentile intervals are reported, unless fewer than 3 valid observations are
available or the base optimization failed to converge, in which case
uncertainty is unavailable (`none`) rather than a fabricated interval. -/
noncomputable def uncertaintyPass (obs : List OptimizedSensorData) (objVal : ℝ)
    (trials : List Candidate) : Option (List (ℝ × ℝ)) :=
  if (usableObs obs).length < 3 ∨ convergenceTarget ≤ objVal then none
  else
    some [percentileInterval (trials.map Candidate.x),
          percentileInterval (trials.map Candidate.y),
          percentileInterval (trials.map Candidate.z),
          percentileInterval (trials.map Candidate.q)]

/-- Modelled from the spec: `InversionResult` — the record assembled by the
orchestrator; `performance_metrics` is modelled by its cache-hit, evaluation
and generation counts. -/
structure OptimizedInversionResult where
  source_x : ℝ
  source_y : ℝ
  source_z : ℝ
  emission_rate : ℝ
  objective_value : ℝ
  convergence_history : List ℝ
  confidence_interval : Option (List (ℝ × ℝ))
  cacheHits : ℕ
  evalCount : ℕ
  generations : ℕ

/-- Evaluate a population through the cached evaluator, threading its state. -/
noncomputable def evalPop (obs : List OptimizedSensorData) (m : MeteoData)
    (st : EvaluatorState) : List Candidate → EvaluatorState
  | [] => st
  | c :: rest => evalPop obs m (evaluateCandidate obs m st c).2 rest

/-- The evaluator state after generation `n`: the initial population and each
generation's offspring all pass through the cached evaluator. -/
noncomputable def gaMetricsState (obs : List OptimizedSensorData) (m : MeteoData)
    (c0 : Candidate) (pop : List Candidate)
    (offspring : ℕ → List Candidate) : ℕ → EvaluatorState
  | 0 => evalPop obs m initEvaluatorState (c0 :: pop)
  | n + 1 => evalPop obs m (gaMetricsState obs m c0 pop offspring n) (offspring n)

/-- Modelled from the spec: `invert_source` of the missing
`optimized_source_inversion.py`.  Validates the inputs (hard failure
`InputValidationError` on fewer than 3 usable observations or non-physical
wind speed), runs the GA to the generation budget, optionally runs the
uncertainty pass, and assembles the result.  `c0 :: pop` is the initial
population and `offspring`/`trials` model all random draws of the run. -/
noncomputable def invert_source (obs : List OptimizedSensorData) (m : MeteoData)
    (params : AdaptiveGAParameters) (c0 : Candidate) (pop : List Candidate)
    (offspring : ℕ → List Candidate) (trials : List Candidate)
    (uncertainty_analysis : Bool) :
    Except InversionError OptimizedInversionResult :=
  if (usableObs obs).length < 3 then .error .inputValidationError
  else if m.wind_speed ≤ 0 then .error .inputValidationError
  else
    let f := fun c => objective c obs m
    let best := gaBest f c0 pop offspring params.max_generations
    let st := gaMetricsState obs m c0 pop offspring params.max_generations
    .ok
      { source_x := best.x
        source_y := best.y
        source_z := best.z
        emission_rate := best.q
        objective_value := f best
        convergence_history :=
          convergence_history f c0 pop offspring (params.max_generations + 1)
        confidence_interval :=
          if uncertainty_analysis then uncertaintyPass obs (f best) trials else none
        cacheHits := st.cacheHits
        evalCount := st.evalCount
        generations := params.max_generations }

/-- C3: with fewer than 3 usable observations, `invert_source` fails hard
with `InputValidationError` — no `InversionResult` is produced (the caller in
`web_interface.py` guards the same threshold before invoking the engine). -/
theorem invert_source_validation_failure (obs : List OptimizedSensorData)
    (m : MeteoData) (params : AdaptiveGAParameters) (c0 : Candidate)
    (pop : List Candidate) (offspring : ℕ → List Candidate)
    (trials : List Candidate) (ua : Bool)
    (h : (usableObs obs).length < 3) :
    invert_source obs m params c0 pop offspring trials ua =
      .error .inputValidationError := by
  unfold invert_source
  rw [if_pos h]

/-- Witness for C3: an empty observation list fails validation. -/
theorem invert_source_validation_failure_witness :
    invert_source [] ⟨3.5, 225, 20, 101325, 60, 500, 0.3⟩
        ⟨50, 500, false, true, none, none⟩ ⟨0, 0, 0, 1⟩ [] (fun _ => []) [] true =
      .error .inputValidationError :=
  invert_source_validation_failure [] ⟨3.5, 225, 20, 101325, 60, 500, 0.3⟩
    ⟨50, 500, false, true, none, none⟩ ⟨0, 0, 0, 1⟩ [] (fun _ => []) [] true
    (by norm_num [usableObs])

/-- C9: when fewer than 3 valid observations are available or the base
optimization failed to converge (best objective still at or above the
convergence target), the uncertainty pass is skipped — the result carries no
confidence interval — and the run still returns an annotated result instead
of raising (`UncertaintyUnavailable` is non-fatal). -/
theorem invert_source_uncertainty_unavailable (obs : List OptimizedSensorData)
    (m : MeteoData) (params : AdaptiveGAParameters) (c0 : Candidate)
    (pop : List Candidate) (offspring : ℕ → List Candidate)
    (trials : List Candidate)
    (hval : ¬(usableObs obs).length < 3) (hw : ¬m.wind_speed ≤ 0)
    (hcond : (usableObs obs).length < 3 ∨
      convergenceTarget ≤
        objective (gaBest (fun c => objective c obs m) c0 pop offspring
          params.max_generations) obs m) :
    ∃ r, invert_source obs m params c0 pop offspring trials true = .ok r ∧
      r.confidence_interval = none := by
  unfold invert_source
  rw [if_neg hval, if_neg hw]
  refine ⟨_, rfl, ?_⟩
  show (if (true : Bool) = true then
      uncertaintyPass obs
        (objective (gaBest (fun c => objective c obs m) c0 pop offspring
          params.max_generations) obs m) trials
    else none) = none
  rw [if_pos rfl]
  unfold uncertaintyPass
  rw [if_pos hcond]

/-- Concrete meteorological state for the C9 witness: wind 3.5 m/s from 270°,
so the downwind axis is the +x direction. -/
noncomputable def c9met : MeteoData := ⟨3.5, 270, 20, 1013.25, 60, 500, 0.3⟩

/-- Concrete candidate for the C9 witness, far downwind of every sensor. -/
noncomputable def c9cand : Candidate := ⟨1000, 0, 5, 1⟩

/-- Concrete observations for the C9 witness: three valid sensors upwind of
the candidate, each reading concentration 10. -/
noncomputable def c9obs : List OptimizedSensorData :=
  [⟨1, 0, 0, 2, 10, 0.1, 1⟩, ⟨2, 10, 0, 2, 10, 0.1, 1⟩, ⟨3, 20, 0, 2, 10, 0.1, 1⟩]

lemma c9_windAngle : windAngle c9met = 0 := by
  unfold windAngle c9met
  norm_num

lemma c9_conc_zero (x y : ℝ) (hx : x ≤ 999) :
    calculate_concentration (candidateSource c9cand) x y 2 c9met = 0 := by
  apply calculate_concentration_of_downwind_nonpos
  unfold downwindDist
  rw [c9_windAngle]
  rw [Real.cos_zero, Real.sin_zero]
  unfold candidateSource c9cand
  simp only
  nlinarith

lemma c9_obj_large :
    convergenceTarget ≤ objective c9cand c9obs c9met := by
  have h0 := c9_conc_zero 0 0 (by norm_num)
  have h1 := c9_conc_zero 10 0 (by norm_num)
  have h2 := c9_conc_zero 20 0 (by norm_num)
  unfold objective c9obs
  simp only [List.map_cons, List.map_nil, List.sum_cons, List.sum_nil,
    List.length_cons, List.length_nil]
  unfold residualTerm
  simp only
  rw [h0, h1, h2]
  norm_num [convergenceTarget, epsDen]

/-- Witness for C9: a non-converged base run (generation budget 0, candidate
far from the data) returns an annotated result with no confidence interval. -/
theorem invert_source_uncertainty_unavailable_witness :
    ∃ r, invert_source c9obs c9met ⟨30, 0, false, true, none, none⟩ c9cand []
        (fun _ => []) [] true = .ok r ∧ r.confidence_interval = none :=
  invert_source_uncertainty_unavailable c9obs c9met ⟨30, 0, false, true, none, none⟩
    c9cand [] (fun _ => []) []
    (by norm_num [usableObs, c9obs])
    (by norm_num [c9met])
    (Or.inr c9_obj_large)

/-- Per-axis search bounds of the 4-D candidate space, as the dictionary built
in `run_enhanced_inversion` (enhanced_pollution_tracing.py, lines 192-207). -/
structure DerivedBounds where
  xlo : ℝ
  xhi : ℝ
  ylo : ℝ
  yhi : ℝ
  zlo : ℝ
  zhi : ℝ
  qlo : ℝ
  qhi : ℝ

/-- Minimum of a list of reals with a default for the empty list, as
`min(xs) if xs else default`. -/
noncomputable def minOr (l : List ℝ) (d : ℝ) : ℝ :=
  match l with
  | [] => d
  | a :: rest => rest.foldl min a

/-- Maximum of a list of reals with a default for the empty list, as
`max(xs) if xs else default`. -/
noncomputable def maxOr (l : List ℝ) (d : ℝ) : ℝ :=
  match l with
  | [] => d
  | a :: rest => rest.foldl max a

/-- Embedded from `run_enhanced_inversion` (enhanced_pollution_tracing.py,
lines 192-207): when `search_bounds` is not supplied, x/y bounds are the
sensors' coordinate ranges widened by
`base_margin = max(150, 0.25 * max(range_x, range_y, 1))`, while the z and
emission-rate axes get the fixed intervals (0, 100) and (0.001, 50). -/
noncomputable def deriveSearchBounds (sensors : List OptimizedSensorData) :
    DerivedBounds :=
  let min_x := minOr (sensors.map (fun s => s.x)) (-1000)
  let max_x := maxOr (sensors.map (fun s => s.x)) 1000
  let min_y := minOr (sensors.map (fun s => s.y)) (-1000)
  let max_y := maxOr (sensors.map (fun s => s.y)) 1000
  let base_margin := max 150 (0.25 * max (max_x - min_x) (max (max_y - min_y) 1))
  ⟨min_x - base_margin, max_x + base_margin,
   min_y - base_margin, max_y + base_margin,
   0, 100, 0.001, 50⟩

/-- Three sensors whose receptors sit at height 500 m: a spatial z-range the
fixed z search interval (0, 100) cannot contain. -/
noncomputable def c7sensors : List OptimizedSensorData :=
  [⟨1, 0, 0, 500, 10, 0.1, 1⟩, ⟨2, 100, 0, 500, 8, 0.1, 1⟩,
   ⟨3, 0, 100, 500, 6, 0.1, 1⟩]

/-- C7 counterexample: for a non-empty observation list at receptor height
500 m, the derived z interval (0, 100) lies strictly below the observations'
z-coordinate range, so it does not contain that range (let alone the range
enlarged by a proportional margin): the claim fails for the z axis. -/
theorem deriveSearchBounds_z_not_containing :
    (deriveSearchBounds c7sensors).zhi <
        maxOr (c7sensors.map (fun s => s.z)) 1000 ∧
      c7sensors.length = 3 := by
  constructor
  · unfold deriveSearchBounds c7sensors maxOr
    norm_num
  · unfold c7sensors
    norm_num

/-- The margin the amended C7 claim promises, stated from the claim's words
(not from the source): at least 150 m and at least 0.25 of the larger of the
two horizontal extents of the observations. -/
noncomputable def guaranteedMargin (sensors : List OptimizedSensorData) : ℝ :=
  max 150 (0.25 * max
    (maxOr (sensors.map (fun s => s.x)) 1000 -
      minOr (sensors.map (fun s => s.x)) (-1000))
    (maxOr (sensors.map (fun s => s.y)) 1000 -
      minOr (sensors.map (fun s => s.y)) (-1000)))

/-- C7 amended: for every non-empty observation list the derived x and y
intervals contain that axis's coordinate range enlarged by a margin of at
least `max(150, 0.25 · max(range_x, range_y))` — i.e. at least 0.25 of the
larger horizontal extent, floored at 150 m (both lower bounds stated
explicitly below); the z and emission-rate intervals are the fixed constants
(0, 100) and (0.001, 50), not derived from the observations. -/
theorem deriveSearchBounds_horizontal_containment
    (sensors : List OptimizedSensorData) (h : sensors ≠ []) :
    (deriveSearchBounds sensors).xlo ≤
        minOr (sensors.map (fun s => s.x)) (-1000) - guaranteedMargin sensors ∧
      maxOr (sensors.map (fun s => s.x)) 1000 + guaranteedMargin sensors ≤
        (deriveSearchBounds sensors).xhi ∧
      (deriveSearchBounds sensors).ylo ≤
        minOr (sensors.map (fun s => s.y)) (-1000) - guaranteedMargin sensors ∧
      maxOr (sensors.map (fun s => s.y)) 1000 + guaranteedMargin sensors ≤
        (deriveSearchBounds sensors).yhi ∧
      150 ≤ guaranteedMargin sensors ∧
      0.25 * (maxOr (sensors.map (fun s => s.x)) 1000 -
          minOr (sensors.map (fun s => s.x)) (-1000)) ≤ guaranteedMargin sensors ∧
      0.25 * (maxOr (sensors.map (fun s => s.y)) 1000 -
          minOr (sensors.map (fun s => s.y)) (-1000)) ≤ guaranteedMargin sensors ∧
      (deriveSearchBounds sensors).zlo = 0 ∧
      (deriveSearchBounds sensors).zhi = 100 ∧
      (deriveSearchBounds sensors).qlo = 0.001 ∧
      (deriveSearchBounds sensors).qhi = 50 := by
  unfold deriveSearchBounds guaranteedMargin
  simp only
  set rx := maxOr (sensors.map (fun s => s.x)) 1000 -
    minOr (sensors.map (fun s => s.x)) (-1000) with hrxdef
  set ry := maxOr (sensors.map (fun s => s.y)) 1000 -
    minOr (sensors.map (fun s => s.y)) (-1000) with hrydef
  have hup : max rx ry ≤ max rx (max ry 1) :=
    max_le_max le_rfl (le_max_left _ _)
  have hgb : max 150 (0.25 * max rx ry) ≤ max 150 (0.25 * max rx (max ry 1)) :=
    max_le_max le_rfl (by nlinarith)
  have h150 : (150:ℝ) ≤ max 150 (0.25 * max rx ry) := le_max_left _ _
  have hmx : 0.25 * rx ≤ max 150 (0.25 * max rx ry) := by
    have h1 : rx ≤ max rx ry := le_max_left _ _
    have h2 : 0.25 * rx ≤ 0.25 * max rx ry := by nlinarith
    exact le_trans h2 (le_max_right _ _)
  have hmy : 0.25 * ry ≤ max 150 (0.25 * max rx ry) := by
    have h1 : ry ≤ max rx ry := le_max_right _ _
    have h2 : 0.25 * ry ≤ 0.25 * max rx ry := by nlinarith
    exact le_trans h2 (le_max_right _ _)
  refine ⟨by linarith, by linarith, by linarith, by linarith, h150, hmx, hmy,
    by trivial, by trivial, by trivial, by trivial⟩

/-- Witness for C7 amended, at a single-sensor list. -/
theorem deriveSearchBounds_horizontal_containment_witness :
    (deriveSearchBounds [⟨1, 30, 40, 2, 10, 0.1, 1⟩]).xlo ≤
        minOr ([⟨1, 30, 40, 2, 10, 0.1, 1⟩].map
            (fun s : OptimizedSensorData => s.x)) (-1000) -
          guaranteedMargin [⟨1, 30, 40, 2, 10, 0.1, 1⟩] ∧
      maxOr ([⟨1, 30, 40, 2, 10, 0.1, 1⟩].map
          (fun s : OptimizedSensorData => s.x)) 1000 +
          guaranteedMargin [⟨1, 30, 40, 2, 10, 0.1, 1⟩] ≤
        (deriveSearchBounds [⟨1, 30, 40, 2, 10, 0.1, 1⟩]).xhi ∧
      (deriveSearchBounds [⟨1, 30, 40, 2, 10, 0.1, 1⟩]).ylo ≤
        minOr ([⟨1, 30, 40, 2, 10, 0.1, 1⟩].map
            (fun s : OptimizedSensorData => s.y)) (-1000) -
          guaranteedMargin [⟨1, 30, 40, 2, 10, 0.1, 1⟩] ∧
      maxOr ([⟨1, 30, 40, 2, 10, 0.1, 1⟩].map
          (fun s : OptimizedSensorData => s.y)) 1000 +
          guaranteedMargin [⟨1, 30, 40, 2, 10, 0.1, 1⟩] ≤
        (deriveSearchBounds [⟨1, 30, 40, 2, 10, 0.1, 1⟩]).yhi ∧
      150 ≤ guaranteedMargin [⟨1, 30, 40, 2, 10, 0.1, 1⟩] ∧
      0.25 * (maxOr ([⟨1, 30, 40, 2, 10, 0.1, 1⟩].map
            (fun s : OptimizedSensorData => s.x)) 1000 -
          minOr ([⟨1, 30, 40, 2, 10, 0.1, 1⟩].map
            (fun s : OptimizedSensorData => s.x)) (-1000)) ≤
        guaranteedMargin [⟨1, 30, 40, 2, 10, 0.1, 1⟩] ∧
      0.25 * (maxOr ([⟨1, 30, 40, 2, 10, 0.1, 1⟩].map
            (fun s : OptimizedSensorData => s.y)) 1000 -
          minOr ([⟨1, 30, 40, 2, 10, 0.1, 1⟩].map
            (fun s : OptimizedSensorData => s.y)) (-1000)) ≤
        guaranteedMargin [⟨1, 30, 40, 2, 10, 0.1, 1⟩] ∧
      (deriveSearchBounds [⟨1, 30, 40, 2, 10, 0.1, 1⟩]).zlo = 0 ∧
      (deriveSearchBounds [⟨1, 30, 40, 2, 10, 0.1, 1⟩]).zhi = 100 ∧
      (deriveSearchBounds [⟨1, 30, 40, 2, 10, 0.1, 1⟩]).qlo = 0.001 ∧
      (deriveSearchBounds [⟨1, 30, 40, 2, 10, 0.1, 1⟩]).qhi = 50 :=
  deriveSearchBounds_horizontal_containment [⟨1, 30, 40, 2, 10, 0.1, 1⟩]
    (by norm_num)

/-- The scenario configuration of `EnhancedScenarioConfig`
(enhanced_pollution_tracing.py).  Counts are naturals, physical quantities
reals; the four algorithm fields feed `_get_algorithm_parameters`. -/
structure EnhancedScenarioConfig where
  source_x : ℝ
  source_y : ℝ
  source_z : ℝ
  emission_rate : ℝ
  wind_speed : ℝ
  wind_direction : ℝ
  temperature : ℝ
  pressure : ℝ
  humidity : ℝ
  sensor_grid_size : ℕ
  sensor_spacing : ℝ
  sensor_height : ℝ
  noise_level : ℝ
  population_size : ℕ
  max_generations : ℕ
  use_parallel : Bool
  use_cache : Bool

/-- The default `EnhancedScenarioConfig()`. -/
def defaultConfig : EnhancedScenarioConfig :=
  ⟨150, 200, 25, 2.5, 3.5, 225, 20, 101325, 60, 7, 100, 2, 0.1, 50, 500, false, true⟩

/-- The algorithm-variant tag selected by `run_enhanced_inversion`; the
source selects by string name with a catch-all default branch. -/
inductive AlgorithmVariant where
  | standard
  | adaptive
  | multiObjective
  | other

/-- The keyword arguments passed to the `AdaptiveGAParameters` constructor by
`_get_algorithm_parameters`; `none` in an optional field means the keyword was
not passed and the constructor default applies. -/
structure GAPreset where
  population_size : ℕ
  max_generations : ℕ
  use_parallel : Bool
  use_cache : Bool
  diversity_threshold : Option ℚ
  stagnation_threshold : Option ℕ

/-- Embedded from `_get_algorithm_parameters` (enhanced_pollution_tracing.py,
lines 233-262).  `int(p * 1.5)` and `int(g * 0.8)` truncate toward zero on
non-negative ints, i.e. `3 * p / 2` and `4 * g / 5` in natural division. -/
def getAlgorithmParameters (cfg : EnhancedScenarioConfig) :
    AlgorithmVariant → GAPreset
  | .standard =>
    ⟨cfg.population_size, cfg.max_generations, cfg.use_parallel, cfg.use_cache,
      none, none⟩
  | .adaptive =>
    ⟨cfg.population_size, cfg.max_generations, cfg.use_parallel, cfg.use_cache,
      some 0.1, some 50⟩
  | .multiObjective =>
    ⟨3 * cfg.population_size / 2, 4 * cfg.max_generations / 5, cfg.use_parallel,
      cfg.use_cache, some 0.15, none⟩
  | .other =>
    ⟨cfg.population_size, cfg.max_generations, cfg.use_parallel, cfg.use_cache,
      none, none⟩

/-- C8 counterexample: at the default configuration the multi-objective
preset passes `diversity_threshold = 0.15` while the standard preset leaves
it at the constructor default, so the two presets differ in a parameter other
than population size and generation budget — the claim that every other
parameter stays equal is false. -/
theorem getAlgorithmParameters_diversity_differs :
    (getAlgorithmParameters defaultConfig .multiObjective).diversity_threshold =
        some 0.15 ∧
      (getAlgorithmParameters defaultConfig .standard).diversity_threshold =
        none := by
  constructor <;> rfl

/-- C8 amended: for every base configuration the multi-objective variant is
the same optimizer core as the standard preset with exactly three parameter
changes — population scaled by 1.5 (truncated), generation budget scaled by
0.8 (truncated), and `diversity_threshold` raised to 0.15; every other
parameter equals the standard preset's. -/
theorem getAlgorithmParameters_multiObjective_spec (cfg : EnhancedScenarioConfig) :
    getAlgorithmParameters cfg .multiObjective =
      { getAlgorithmParameters cfg .standard with
          population_size := 3 * cfg.population_size / 2
          max_generations := 4 * cfg.max_generations / 5
          diversity_threshold := some 0.15 } := by
  rfl

/-- The grid position of sensor cell (i, j):
`(i - grid_size // 2) * spacing` around center (0, 0), with Python floor
division on the grid size. -/
noncomputable def gridPoint (cfg : EnhancedScenarioConfig) (i j : ℕ) : ℝ × ℝ :=
  ((((i : ℤ) - (cfg.sensor_grid_size : ℤ) / 2 : ℤ) : ℝ) * cfg.sensor_spacing,
   (((j : ℤ) - (cfg.sensor_grid_size : ℤ) / 2 : ℤ) : ℝ) * cfg.sensor_spacing)

/-- One grid cell of `_create_sensor_network`: the theoretical concentration
plus the drawn noise, clamped at 0; cells whose observed concentration is not
above the 0.1 threshold produce no sensor.  The string id `SiijJ` is modelled
numerically. -/
noncomputable def mkGridSensor (cfg : EnhancedScenarioConfig) (i j : ℕ)
    (conc noiseVal : ℝ) : Option OptimizedSensorData :=
  if 0.1 < max 0 (conc + noiseVal) then
    some ⟨100 * i + j, (gridPoint cfg i j).1, (gridPoint cfg i j).2,
      cfg.sensor_height, max 0 (conc + noiseVal),
      max 0 (conc + noiseVal) * cfg.noise_level,
      1 / (1 + max 0 (conc + noiseVal) * cfg.noise_level)⟩
  else none

/-- Embedded from `_create_sensor_network` (enhanced_pollution_tracing.py,
lines 126-161); the forward model is the spec-modelled
`calculate_concentration` and the numpy noise draw at each cell is the
arbitrary input stream `noise`. -/
noncomputable def createSensorNetwork (cfg : EnhancedScenarioConfig)
    (src : PollutionSource) (m : MeteoData) (noise : ℕ → ℕ → ℝ) :
    List OptimizedSensorData :=
  (List.range cfg.sensor_grid_size).flatMap (fun i =>
    (List.range cfg.sensor_grid_size).filterMap (fun j =>
      mkGridSensor cfg i j
        (calculate_concentration src (gridPoint cfg i j).1 (gridPoint cfg i j).2
          cfg.sensor_height m)
        (noise i j)))

/-- A 1×1-grid scenario configuration whose only grid cell sits upwind of the
hypothesized source, so the theoretical concentration there is 0. -/
noncomputable def c10cfg : EnhancedScenarioConfig :=
  ⟨1000, 0, 5, 1, 3.5, 270, 20, 1013.25, 60, 1, 100, 2, 0.1, 30, 50, false, true⟩

lemma c10_gridPoint : gridPoint c10cfg 0 0 = (0, 0) := by
  unfold gridPoint c10cfg
  norm_num

lemma c10_conc_zero :
    calculate_concentration (candidateSource c9cand) (gridPoint c10cfg 0 0).1
      (gridPoint c10cfg 0 0).2 c10cfg.sensor_height c9met = 0 := by
  rw [c10_gridPoint]
  exact c9_conc_zero 0 0 (by norm_num)

lemma c10_network_empty :
    createSensorNetwork c10cfg (candidateSource c9cand) c9met (fun _ _ => 0) = [] := by
  have hmk : mkGridSensor c10cfg 0 0
      (calculate_concentration (candidateSource c9cand) (gridPoint c10cfg 0 0).1
        (gridPoint c10cfg 0 0).2 c10cfg.sensor_height c9met) 0 = none := by
    rw [mkGridSensor, c10_conc_zero]
    norm_num
  unfold createSensorNetwork
  rw [show c10cfg.sensor_grid_size = 1 from rfl]
  rw [show List.range 1 = [0] from rfl]
  simp [hmk]

lemma c10_network_one :
    createSensorNetwork c10cfg (candidateSource c9cand) c9met (fun _ _ => 1) =
      [⟨0, 0, 0, 2, 1, 0.1, 1 / 1.1⟩] := by
  have hmax : max (0:ℝ) (0 + 1) = 1 := by
    rw [max_eq_right (by norm_num : (0:ℝ) ≤ 0 + 1)]
    norm_num
  have hmk : mkGridSensor c10cfg 0 0
      (calculate_concentration (candidateSource c9cand) (gridPoint c10cfg 0 0).1
        (gridPoint c10cfg 0 0).2 c10cfg.sensor_height c9met) 1 =
      some ⟨0, 0, 0, 2, 1, 0.1, 1 / 1.1⟩ := by
    rw [mkGridSensor, c10_conc_zero]
    rw [if_pos (by rw [hmax]; norm_num)]
    rw [c10_gridPoint, hmax]
    rw [show c10cfg.sensor_height = 2 from rfl]
    rw [show c10cfg.noise_level = 0.1 from rfl]
    norm_num
  unfold createSensorNetwork
  rw [show c10cfg.sensor_grid_size = 1 from rfl]
  rw [show List.range 1 = [0] from rfl]
  simp [hmk]

/-- C10: every sensor returned by `_create_sensor_network` has observed
concentration strictly above 0.1, uncertainty equal to concentration times
the configured noise level (hence ≥ 0), and weight
`1 / (1 + concentration · noise_level)` lying in (0, 1]; and because cells at
or below the 0.1 threshold are excluded, a network with fewer than 3 sensors
is possible. -/
theorem createSensorNetwork_sensor_props (cfg : EnhancedScenarioConfig)
    (src : PollutionSource) (m : MeteoData) (noise : ℕ → ℕ → ℝ)
    (s : OptimizedSensorData) (hnl : 0 ≤ cfg.noise_level)
    (hs : s ∈ createSensorNetwork cfg src m noise) :
    0.1 < s.concentration ∧
      s.uncertainty = s.concentration * cfg.noise_level ∧
      0 ≤ s.uncertainty ∧
      s.weight = 1 / (1 + s.concentration * cfg.noise_level) ∧
      0 < s.weight ∧ s.weight ≤ 1 ∧
      ∃ cfg2 src2 m2 noise2,
        (createSensorNetwork cfg2 src2 m2 noise2).length < 3 := by
  obtain ⟨i, hi, hsf⟩ := List.mem_flatMap.mp hs
  obtain ⟨j, hj, hmk⟩ := List.mem_filterMap.mp hsf
  rw [mkGridSensor] at hmk
  split_ifs at hmk with hobs
  rw [Option.some_inj] at hmk
  subst hmk
  have hobs0 : (0:ℝ) ≤ max 0 (calculate_concentration src (gridPoint cfg i j).1
      (gridPoint cfg i j).2 cfg.sensor_height m + noise i j) := le_max_left 0 _
  have hx : 0 ≤ max 0 (calculate_concentration src (gridPoint cfg i j).1
      (gridPoint cfg i j).2 cfg.sensor_height m + noise i j) * cfg.noise_level :=
    mul_nonneg hobs0 hnl
  refine ⟨hobs, rfl, hx, rfl, ?_, ?_, ?_⟩
  · have hpos : (0:ℝ) < 1 + max 0 (calculate_concentration src (gridPoint cfg i j).1
        (gridPoint cfg i j).2 cfg.sensor_height m + noise i j) * cfg.noise_level := by
      linarith
    exact div_pos one_pos hpos
  · rw [div_le_one (by linarith)]
    linarith
  · exact ⟨c10cfg, candidateSource c9cand, c9met, fun _ _ => 0, by
      rw [c10_network_empty]
      norm_num⟩

/-- Witness for C10: the 1×1-grid scenario with unit noise produces exactly
one sensor, whose fields satisfy every listed property. -/
theorem createSensorNetwork_sensor_props_witness :
    0.1 < (⟨0, 0, 0, 2, 1, 0.1, 1 / 1.1⟩ : OptimizedSensorData).concentration ∧
      (⟨0, 0, 0, 2, 1, 0.1, 1 / 1.1⟩ : OptimizedSensorData).uncertainty =
        (⟨0, 0, 0, 2, 1, 0.1, 1 / 1.1⟩ : OptimizedSensorData).concentration *
          c10cfg.noise_level ∧
      0 ≤ (⟨0, 0, 0, 2, 1, 0.1, 1 / 1.1⟩ : OptimizedSensorData).uncertainty ∧
      (⟨0, 0, 0, 2, 1, 0.1, 1 / 1.1⟩ : OptimizedSensorData).weight =
        1 / (1 + (⟨0, 0, 0, 2, 1, 0.1, 1 / 1.1⟩ : OptimizedSensorData).concentration *
          c10cfg.noise_level) ∧
      0 < (⟨0, 0, 0, 2, 1, 0.1, 1 / 1.1⟩ : OptimizedSensorData).weight ∧
      (⟨0, 0, 0, 2, 1, 0.1, 1 / 1.1⟩ : OptimizedSensorData).weight ≤ 1 ∧
      ∃ cfg2 src2 m2 noise2,
        (createSensorNetwork cfg2 src2 m2 noise2).length < 3 :=
  createSensorNetwork_sensor_props c10cfg (candidateSource c9cand) c9met
    (fun _ _ => 1) ⟨0, 0, 0, 2, 1, 0.1, 1 / 1.1⟩
    (by norm_num [c10cfg])
    (by rw [c10_network_one]; exact List.mem_singleton.mpr rfl)

/-- The receptor lying on the plume centerline at downwind distance `d` from
the source (crosswind offset 0). -/
noncomputable def downwindPoint (s : PollutionSource) (m : MeteoData) (d : ℝ) : ℝ × ℝ :=
  (s.x + d * Real.cos (windAngle m), s.y + d * Real.sin (windAngle m))

/-- Concentration along the plume centerline at downwind distance `d` and
receptor height `rz`. -/
noncomputable def centerlineConcentration (s : PollutionSource) (m : MeteoData)
    (d rz : ℝ) : ℝ :=
  calculate_concentration s (downwindPoint s m d).1 (downwindPoint s m d).2 rz m

lemma downwindDist_downwindPoint (s : PollutionSource) (m : MeteoData) (d : ℝ) :
    downwindDist s (downwindPoint s m d).1 (downwindPoint s m d).2 m = d := by
  unfold downwindDist downwindPoint
  simp only
  linear_combination d * Real.sin_sq_add_cos_sq (windAngle m)

lemma crosswindDist_downwindPoint (s : PollutionSource) (m : MeteoData) (d : ℝ) :
    crosswindDist s (downwindPoint s m d).1 (downwindPoint s m d).2 m = 0 := by
  unfold crosswindDist downwindPoint
  ring

lemma centerline_closed (s : PollutionSource) (m : MeteoData) (d rz : ℝ)
    (hd : 0 < d) (hu : calmThreshold ≤ m.wind_speed) :
    centerlineConcentration s m d rz =
      s.emission_rate /
          (2 * Real.pi * m.wind_speed * (sigmaYCoeff (stabilityClass m) * d) *
            (sigmaZCoeff (stabilityClass m) * d)) *
        (Real.exp (-((rz - s.z) ^ 2) /
            (2 * (sigmaZCoeff (stabilityClass m) * d) ^ 2)) +
          Real.exp (-((rz + s.z) ^ 2) /
            (2 * (sigmaZCoeff (stabilityClass m) * d) ^ 2))) := by
  have hsy : (0:ℝ) < sigmaYCoeff (stabilityClass m) * d :=
    mul_pos (sigmaYCoeff_pos _) hd
  have hsz : (0:ℝ) < sigmaZCoeff (stabilityClass m) * d :=
    mul_pos (sigmaZCoeff_pos _) hd
  unfold centerlineConcentration calculate_concentration
  rw [downwindDist_downwindPoint, crosswindDist_downwindPoint]
  rw [if_neg (not_lt.mpr hu)]
  rw [if_neg (not_le.mpr hd)]
  rw [if_neg (not_or.mpr ⟨not_le.mpr hsy, not_le.mpr hsz⟩)]
  norm_num

/-- The elevated source of the C6 counterexample: stack height 10 m, unit
emission rate. -/
noncomputable def c6src : PollutionSource := ⟨0, 0, 10, 1⟩

lemma c6_class : stabilityClass c9met = 2 := by
  unfold stabilityClass c9met
  norm_num

lemma c6_calm : calmThreshold ≤ c9met.wind_speed := by
  norm_num [calmThreshold, c9met]

lemma c6_exp_gap : 25 * Real.exp (-5000 : ℝ) < Real.exp (-200 : ℝ) := by
  have h1 : Real.exp (-200 : ℝ) = Real.exp (4800 : ℝ) * Real.exp (-5000 : ℝ) := by
    rw [← Real.exp_add]
    norm_num
  have h2 : (25 : ℝ) < Real.exp (4800 : ℝ) := by
    have h3 := Real.add_one_le_exp (4800 : ℝ)
    linarith
  calc 25 * Real.exp (-5000 : ℝ)
      < Real.exp (4800 : ℝ) * Real.exp (-5000 : ℝ) :=
        mul_lt_mul_of_pos_right h2 (Real.exp_pos _)
    _ = Real.exp (-200 : ℝ) := h1.symm

lemma c6_value_at (d : ℝ) (hd : 0 < d) :
    centerlineConcentration c6src c9met d 0 =
      1 / (2 * Real.pi * 3.5 * (0.12 * d) * (0.1 * d)) *
        (2 * Real.exp (-(100 : ℝ) / (2 * (0.1 * d) ^ 2))) := by
  rw [centerline_closed c6src c9met d 0 hd c6_calm]
  rw [c6_class]
  rw [show sigmaYCoeff 2 = 0.12 from by norm_num [sigmaYCoeff]]
  rw [show sigmaZCoeff 2 = 0.1 from by norm_num [sigmaZCoeff]]
  rw [show c6src.emission_rate = 1 from rfl]
  rw [show c9met.wind_speed = 3.5 from rfl]
  rw [show c6src.z = 10 from rfl]
  norm_num
  exact Or.inl (by ring)

/-- C6 counterexample: with the source elevated at 10 m and the receptor at
ground level, the centerline concentration at downwind distance 1 m is
strictly below the one at 5 m — concentration is not strictly decreasing in
downwind distance when the receptor height is fixed below the plume axis. -/
theorem centerline_not_strictly_decreasing :
    centerlineConcentration c6src c9met 1 0 < centerlineConcentration c6src c9met 5 0 := by
  have hL := c6_value_at 1 one_pos
  have hR := c6_value_at 5 (by norm_num)
  rw [hL, hR]
  have hπ := Real.pi_pos
  have hL2 : (1:ℝ) / (2 * Real.pi * 3.5 * (0.12 * 1) * (0.1 * 1)) *
      (2 * Real.exp (-(100 : ℝ) / (2 * (0.1 * 1) ^ 2))) =
      2 / (2.1 * Real.pi) * (25 * Real.exp (-5000 : ℝ)) := by
    rw [show -(100 : ℝ) / (2 * (0.1 * 1) ^ 2) = (-5000 : ℝ) from by norm_num]
    field_simp
    ring
  have hR2 : (1:ℝ) / (2 * Real.pi * 3.5 * (0.12 * 5) * (0.1 * 5)) *
      (2 * Real.exp (-(100 : ℝ) / (2 * (0.1 * 5) ^ 2))) =
      2 / (2.1 * Real.pi) * Real.exp (-200 : ℝ) := by
    rw [show -(100 : ℝ) / (2 * (0.1 * 5) ^ 2) = (-200 : ℝ) from by norm_num]
    field_simp
    ring
  rw [hL2, hR2]
  exact mul_lt_mul_of_pos_left c6_exp_gap (by positivity)

/-- The shape of the on-axis centerline profile as a function of
`t = 1 / d²`: `t · (1 + exp(−k·t))` with `k = 2H²/σz-rate²`. -/
noncomputable def reflectionShape (k t : ℝ) : ℝ := t * (1 + Real.exp (-(k * t)))

lemma reflectionShape_hasDerivAt (k t : ℝ) :
    HasDerivAt (reflectionShape k)
      (1 * (1 + Real.exp (-(k * t))) + t * (Real.exp (-(k * t)) * -k)) t := by
  have h1 : HasDerivAt (fun x : ℝ => k * x) (k * 1) t := (hasDerivAt_id t).const_mul k
  have h2 : HasDerivAt (fun x : ℝ => -(k * x)) (-(k * 1)) t := h1.neg
  have h3 : HasDerivAt (fun x : ℝ => Real.exp (-(k * x)))
      (Real.exp (-(k * t)) * -(k * 1)) t := h2.exp
  have h4 : HasDerivAt (fun x : ℝ => 1 + Real.exp (-(k * x)))
      (Real.exp (-(k * t)) * -(k * 1)) t := h3.const_add 1
  have h5 := (hasDerivAt_id t).mul h4
  simpa [reflectionShape, mul_one] using h5

lemma reflectionShape_deriv_pos (k : ℝ) (hk : 0 ≤ k) (t : ℝ) (ht : 0 < t) :
    0 < 1 * (1 + Real.exp (-(k * t))) + t * (Real.exp (-(k * t)) * -k) := by
  have he : 0 < Real.exp (-(k * t)) := Real.exp_pos _
  rcases le_or_lt (k * t) 1 with h | h
  · nlinarith [mul_le_mul_of_nonneg_left h he.le]
  · have h2 : k * t + 1 ≤ Real.exp (k * t) := Real.add_one_le_exp _
    have h3 : Real.exp (-(k * t)) * Real.exp (k * t) = 1 := by
      rw [← Real.exp_add]
      simp
    nlinarith [mul_le_mul_of_nonneg_left h2 he.le, Real.exp_pos (k * t)]

lemma reflectionShape_strictMonoOn (k : ℝ) (hk : 0 ≤ k) :
    StrictMonoOn (reflectionShape k) (Set.Ioi 0) := by
  apply strictMonoOn_of_deriv_pos (convex_Ioi 0)
  · have hc : Continuous (reflectionShape k) := by
      unfold reflectionShape
      continuity
    exact hc.continuousOn
  · intro x hx
    rw [interior_Ioi] at hx
    rw [(reflectionShape_hasDerivAt k x).deriv]
    exact reflectionShape_deriv_pos k hk x (Set.mem_Ioi.mp hx)

lemma centerline_axis_eq (s : PollutionSource) (m : MeteoData) (d : ℝ)
    (hd : 0 < d) (hu : calmThreshold ≤ m.wind_speed) :
    centerlineConcentration s m d s.z =
      s.emission_rate / (2 * Real.pi * m.wind_speed *
          sigmaYCoeff (stabilityClass m) * sigmaZCoeff (stabilityClass m)) *
        reflectionShape (2 * s.z ^ 2 / sigmaZCoeff (stabilityClass m) ^ 2)
          (1 / d ^ 2) := by
  rw [centerline_closed s m d s.z hd hu]
  unfold reflectionShape
  have hsz : (0:ℝ) < sigmaZCoeff (stabilityClass m) := sigmaZCoeff_pos _
  have hsy : (0:ℝ) < sigmaYCoeff (stabilityClass m) := sigmaYCoeff_pos _
  have hu0 : (0:ℝ) < m.wind_speed :=
    lt_of_lt_of_le (by norm_num [calmThreshold]) hu
  have hπ : Real.pi ≠ 0 := Real.pi_ne_zero
  have hd0 : d ≠ 0 := ne_of_gt hd
  have hsz0 : sigmaZCoeff (stabilityClass m) ≠ 0 := ne_of_gt hsz
  have hzero : -((s.z - s.z) ^ 2) /
      (2 * (sigmaZCoeff (stabilityClass m) * d) ^ 2) = 0 := by
    simp
  have harg : -((s.z + s.z) ^ 2) /
      (2 * (sigmaZCoeff (stabilityClass m) * d) ^ 2) =
      -(2 * s.z ^ 2 / sigmaZCoeff (stabilityClass m) ^ 2 * (1 / d ^ 2)) := by
    field_simp
    ring
  rw [hzero, harg, Real.exp_zero]
  field_simp
  exact Or.inl (by ring)

/-- C6 amended: along the plume centerline at receptor height equal to the
source height (i.e. on the plume axis, where the claim's "all else fixed"
comparison is well posed), the concentration is strictly decreasing in
downwind distance: for 0 < d1 < d2 the value at d2 is strictly below the
value at d1.  At other fixed receptor heights the counterexample above shows
the profile first rises. -/
theorem centerline_strict_decrease_on_axis (s : PollutionSource) (m : MeteoData)
    (d1 d2 : ℝ) (hd1 : 0 < d1) (h12 : d1 < d2) (hu : calmThreshold ≤ m.wind_speed)
    (hq : 0 < s.emission_rate) :
    centerlineConcentration s m d2 s.z < centerlineConcentration s m d1 s.z := by
  have hd2 : 0 < d2 := lt_trans hd1 h12
  rw [centerline_axis_eq s m d1 hd1 hu, centerline_axis_eq s m d2 hd2 hu]
  have hk : 0 ≤ 2 * s.z ^ 2 / sigmaZCoeff (stabilityClass m) ^ 2 := by positivity
  have ht2 : (0:ℝ) < 1 / d2 ^ 2 := by positivity
  have hsq : d1 ^ 2 < d2 ^ 2 := by nlinarith
  have ht12 : 1 / d2 ^ 2 < 1 / d1 ^ 2 := by
    apply one_div_lt_one_div_of_lt
    · positivity
    · exact hsq
  have hA : 0 < s.emission_rate / (2 * Real.pi * m.wind_speed *
      sigmaYCoeff (stabilityClass m) * sigmaZCoeff (stabilityClass m)) := by
    have h1 := sigmaYCoeff_pos (stabilityClass m)
    have h2 := sigmaZCoeff_pos (stabilityClass m)
    have h3 : (0:ℝ) < m.wind_speed :=
      lt_of_lt_of_le (by norm_num [calmThreshold]) hu
    have hπ := Real.pi_pos
    positivity
  have hg := reflectionShape_strictMonoOn
      (2 * s.z ^ 2 / sigmaZCoeff (stabilityClass m) ^ 2) hk
      (Set.mem_Ioi.mpr ht2) (Set.mem_Ioi.mpr (lt_trans ht2 ht12)) ht12
  exact mul_lt_mul_of_pos_left hg hA

/-- Witness for C6 amended: on the plume axis of the counterexample scenario
(source height 10 m), the concentration at 5 m downwind is strictly below the
one at 1 m. -/
theorem centerline_strict_decrease_on_axis_witness :
    centerlineConcentration c6src c9met 5 c6src.z <
      centerlineConcentration c6src c9met 1 c6src.z :=
  centerline_strict_decrease_on_axis c6src c9met 1 5 one_pos (by norm_num)
    c6_calm (by norm_num [c6src])

end SourceTracing
